import Mathlib

/-!
Shallow embedding of the salarium payroll/statistics core
(backend/app/routes/stats.py and the payroll calculator it mirrors).

Monetary amounts are Python `Decimal` values in the source; they are
modelled here as exact rationals (`Rat`).  The source's `float(...)`
conversions at the output boundary are modelled as the identity.
Optional record fields that may be absent on older records (accessed
through the `_F` safe accessor with default 0) are modelled as fields
with default value 0, as the spec's design notes prescribe.
-/

/-- Type tag of a custom field definition (`field_type` in the source):
either `income` or `deduction`. -/
inductive FieldType where
  | income : FieldType
  | deduction : FieldType
deriving DecidableEq

/-- One custom field entry attached to a salary record, as produced by
`load_custom_fields_for_payroll`:
`{field_type, is_non_cash, amount, field_key, label}`. -/
structure CustomField where
  field_type : FieldType
  is_non_cash : Bool
  amount : Rat
  field_key : String := ""
  label : String := ""
deriving DecidableEq

/-- A salary record snapshot.  Fields that may be missing on older
records default to 0 (the source reads them through `_F(record, name, 0)`). -/
structure SalaryRecord where
  person_id : Nat
  year : Nat
  month : Nat
  base_salary : Rat := 0
  performance_salary : Rat := 0
  pension_insurance : Rat := 0
  medical_insurance : Rat := 0
  unemployment_insurance : Rat := 0
  critical_illness_insurance : Rat := 0
  enterprise_annuity : Rat := 0
  housing_fund : Rat := 0
  tax : Rat := 0
  high_temp_allowance : Rat := 0
  low_temp_allowance : Rat := 0
  meal_allowance : Rat := 0
  computer_allowance : Rat := 0
  communication_allowance : Rat := 0
  comprehensive_allowance : Rat := 0
  mid_autumn_benefit : Rat := 0
  dragon_boat_benefit : Rat := 0
  spring_festival_benefit : Rat := 0
  other_income : Rat := 0
  other_deductions : Rat := 0
  labor_union_fee : Rat := 0
  performance_deduction : Rat := 0
deriving DecidableEq

/-- A person snapshot with the three historical carryover balances. -/
structure Person where
  id : Nat := 0
  name : String := ""
  pension_history : Rat := 0
  medical_history : Rat := 0
  housing_fund_history : Rat := 0
deriving DecidableEq

/-- `_allowances_sum_net`: the five allowances counted toward net income
(meal allowance excluded). -/
def _allowances_sum_net (r : SalaryRecord) : Rat :=
  r.high_temp_allowance + r.low_temp_allowance + r.computer_allowance
    + r.communication_allowance + r.comprehensive_allowance

/-- `_allowances_sum_full`: allowances for composition/gross reporting
(meal allowance included). -/
def _allowances_sum_full (r : SalaryRecord) : Rat :=
  r.high_temp_allowance + r.low_temp_allowance + r.meal_allowance
    + r.computer_allowance + r.communication_allowance + r.comprehensive_allowance

/-- `_benefits_sum`: festival welfare only. -/
def _benefits_sum (r : SalaryRecord) : Rat :=
  r.mid_autumn_benefit + r.dragon_boat_benefit + r.spring_festival_benefit

/-- `_deductions_sum`: the six insurance/fund fields plus other deductions,
labor union fee and performance deduction. -/
def _deductions_sum (r : SalaryRecord) : Rat :=
  r.pension_insurance + r.medical_insurance + r.unemployment_insurance
    + r.critical_illness_insurance + r.enterprise_annuity + r.housing_fund
    + r.other_deductions + r.labor_union_fee + r.performance_deduction

/-- `_custom_sums`: splits a record's custom entries into
(cash income, non-cash income, deduction) totals. -/
def _custom_sums (custom_items : List CustomField) : Rat × Rat × Rat :=
  custom_items.foldl
    (fun acc cf =>
      match cf.field_type with
      | FieldType.income =>
          if cf.is_non_cash then (acc.1, acc.2.1 + cf.amount, acc.2.2)
          else (acc.1 + cf.amount, acc.2.1, acc.2.2)
      | FieldType.deduction => (acc.1, acc.2.1, acc.2.2 + cf.amount))
    (0, 0, 0)

/-- `_ym_num(y, m) = y * 100 + m`. -/
def _ym_num (y m : Int) : Int := y * 100 + m

/-- Year-month key of a record as a comparable number. -/
def recYm (r : SalaryRecord) : Int := _ym_num r.year r.month

/-- Python whitespace characters recognised by `str.strip()`. -/
def pyIsSpace (c : Char) : Bool :=
  c = ' ' || c = '\t' || c = '\n' || c = '\r' || c = '\x0b' || c = '\x0c'

/-- Model of Python `str.strip()` on a character list. -/
def stripChars (l : List Char) : List Char :=
  ((l.dropWhile pyIsSpace).reverse.dropWhile pyIsSpace).reverse

/-- Value of a digit string read in base 10. -/
def digitsToNat (l : List Char) : Nat :=
  l.foldl (fun acc c => acc * 10 + (c.toNat - Char.toNat '0')) 0

/-- Model of Python `int(str)` on ASCII tokens: surrounding whitespace,
an optional sign, then decimal digits; `none` models a raised
`ValueError`.  (Digit-grouping underscores are not modelled: in
`_parse_range`, an underscore would already have been consumed as a
range separator.) -/
def pyInt (l : List Char) : Option Int :=
  let t := stripChars l
  let core : List Char × Bool :=
    match t with
    | '-' :: rest => (rest, true)
    | '+' :: rest => (rest, false)
    | _ => (t, false)
  if core.1 ≠ [] ∧ core.1.all Char.isDigit then
    let n : Int := digitsToNat core.1
    some (if core.2 then -n else n)
  else none

/-- Substring test (`needle in hay` in Python). -/
def listContains (needle : List Char) : List Char → Bool
  | [] => needle.isEmpty
  | c :: t => needle.isPrefixOf (c :: t) || listContains needle t

/-- Model of Python `s.split(sep, 1)` at the first occurrence of `sep`
(assumed present; otherwise the whole string is returned on the left). -/
def splitOnce (sep : List Char) : List Char → List Char × List Char
  | [] => ([], [])
  | c :: t =>
      if sep.isPrefixOf (c :: t) then ([], (c :: t).drop sep.length)
      else
        let pr := splitOnce sep t
        (c :: pr.1, pr.2)

/-- `parse_one` inside `_parse_range`: parse one endpoint token into a
(year, month) pair with lenient fallbacks. -/
def parse_one (part : List Char) (is_start : Bool) : Int × Int :=
  let p := stripChars part
  if p = [] then (if is_start then (0, 1) else (9999, 12))
  else if p.length = 4 ∧ p.all Char.isDigit then
    let y : Int := digitsToNat p
    if is_start then (y, 1) else (y, 12)
  else if listContains ['-'] p then
    let pr := splitOnce ['-'] p
    match pyInt pr.1, pyInt pr.2 with
    | some y, some m => (y, m)
    | _, _ => if is_start then (0, 1) else (9999, 12)
  else if is_start then (0, 1) else (9999, 12)

/-- `_parse_range`: parse a flexible range string into inclusive
start/end YYYYMM bounds. -/
def _parse_range (range_str : String) : Int × Int :=
  let s := stripChars range_str.data
  if s = [] then (0, 999999)
  else
    let sep : Option (List Char) :=
      if listContains ['.', '.'] s then some ['.', '.']
      else if listContains [':'] s then some [':']
      else if listContains [','] s then some [',']
      else if listContains ['_'] s then some ['_']
      else none
    match sep with
    | none =>
        let ym := parse_one s true
        (_ym_num ym.1 ym.2, _ym_num ym.1 ym.2)
    | some sp =>
        let lr := splitOnce sp s
        let a := parse_one lr.1 true
        let b := parse_one lr.2 false
        (_ym_num a.1 a.2, _ym_num b.1 b.2)

/-- `_apply_range`: keep records whose year-month number lies within the
parsed bounds (no filtering when the range string is absent). -/
def _apply_range (recs : List SalaryRecord) (range_str : Option String) : List SalaryRecord :=
  match range_str with
  | none => recs
  | some s =>
      if s = "" then recs
      else
        let se := _parse_range s
        recs.filter (fun r => decide (se.1 ≤ recYm r) && decide (recYm r ≤ se.2))

/-- Output row of the monthly statistics view (`MonthlyStats` schema). -/
structure MonthlyStats where
  person_id : Nat
  year : Nat
  month : Nat
  base_salary : Rat
  performance : Rat
  allowances_total : Rat
  bonuses_total : Rat
  insurance_total : Rat
  tax : Rat
  gross_income : Rat
  net_income : Rat
  actual_take_home : Rat
  non_cash_benefits : Rat
deriving DecidableEq

/-- Body of the loop in `monthly_stats`: the row built for one record and
its custom field entries. -/
def monthlyRow (r : SalaryRecord) (custom : List CustomField) : MonthlyStats :=
  let cs := _custom_sums custom
  let custom_cash := cs.1
  let custom_non_cash := cs.2.1
  let custom_deduction := cs.2.2
  let allowances_total := r.high_temp_allowance + r.low_temp_allowance
    + r.computer_allowance + r.communication_allowance + r.comprehensive_allowance
  let insurance_total := r.pension_insurance + r.medical_insurance
    + r.unemployment_insurance + r.critical_illness_insurance
    + r.enterprise_annuity + r.housing_fund
  let benefits_total := _benefits_sum r + custom_non_cash
  let cash_income := r.base_salary + r.performance_salary
    + _allowances_sum_full r + r.other_income + custom_cash
  let deductions_total := _deductions_sum r + custom_deduction
  let actual_take_home := cash_income - deductions_total - r.tax
  { person_id := r.person_id, year := r.year, month := r.month,
    base_salary := r.base_salary, performance := r.performance_salary,
    allowances_total := allowances_total, bonuses_total := 0,
    insurance_total := insurance_total, tax := r.tax,
    gross_income := cash_income, net_income := actual_take_home,
    actual_take_home := actual_take_home, non_cash_benefits := benefits_total }

/-- `monthly_stats`: one row per record (records are given together with
their batch-loaded custom field entries). -/
def monthly_stats (recs : List (SalaryRecord × List CustomField)) : List MonthlyStats :=
  recs.map (fun rc => monthlyRow rc.1 rc.2)

/-- Per-person accumulator of `yearly_stats` (the `stats_map` values). -/
structure YAcc where
  months : Nat
  gross : Rat
  net : Rat
  insurance : Rat
  tax : Rat
  allowances : Rat
  bonuses : Rat
  actual_take_home : Rat
  non_cash_benefits : Rat
deriving DecidableEq

/-- Initial per-person accumulator (all zeroes). -/
def yInit : YAcc :=
  { months := 0, gross := 0, net := 0, insurance := 0, tax := 0,
    allowances := 0, bonuses := 0, actual_take_home := 0, non_cash_benefits := 0 }

/-- Body of the loop in `yearly_stats`: fold one record into a person's
accumulator. -/
def yUpdate (s : YAcc) (r : SalaryRecord) (custom : List CustomField) : YAcc :=
  let cs := _custom_sums custom
  let custom_cash := cs.1
  let custom_non_cash := cs.2.1
  let custom_deduction := cs.2.2
  let allowances_total := r.high_temp_allowance + r.low_temp_allowance
    + r.computer_allowance + r.communication_allowance + r.comprehensive_allowance
  let bonuses_total := r.mid_autumn_benefit + r.dragon_boat_benefit
    + r.spring_festival_benefit + r.other_income
  let insurance_total := r.pension_insurance + r.medical_insurance
    + r.unemployment_insurance + r.critical_illness_insurance
    + r.enterprise_annuity + r.housing_fund
  let benefits_total := _benefits_sum r + custom_non_cash
  let cash_income := r.base_salary + r.performance_salary
    + _allowances_sum_full r + r.other_income + custom_cash
  let deductions_total := _deductions_sum r + custom_deduction
  let actual_take_home := cash_income - deductions_total - r.tax
  { months := s.months + 1,
    gross := s.gross + cash_income,
    net := s.net + actual_take_home,
    insurance := s.insurance + insurance_total,
    tax := s.tax + r.tax,
    allowances := s.allowances + allowances_total,
    bonuses := s.bonuses + bonuses_total,
    actual_take_home := s.actual_take_home + actual_take_home,
    non_cash_benefits := s.non_cash_benefits + benefits_total }

/-- Model of a Python dict updated by `s = m.get(k, init); m[k] = f(s)`:
an association list in insertion order, updating in place when the key
exists and appending otherwise. -/
def dictUpd {κ β : Type} [DecidableEq κ] (init : β) :
    List (κ × β) → κ → (β → β) → List (κ × β)
  | [], k, f => [(k, f init)]
  | (k0, v) :: t, k, f =>
      if k0 = k then (k0, f v) :: t else (k0, v) :: dictUpd init t k f

/-- Model of Python `m.get(k, init)` on an association list. -/
def dictGet {κ β : Type} [DecidableEq κ] (init : β) : List (κ × β) → κ → β
  | [], _ => init
  | (k0, v) :: t, k => if k0 = k then v else dictGet init t k

/-- The `stats_map` of `yearly_stats` after folding all records. -/
def yearlyStatsMap (recs : List (SalaryRecord × List CustomField)) :
    List (Nat × YAcc) :=
  recs.foldl (fun m rc => dictUpd yInit m rc.1.person_id (fun s => yUpdate s rc.1 rc.2)) []

/-- Output row of the yearly statistics view (`YearlyStats` schema, whose
shape is fixed by the constructor call in `yearly_stats`). -/
structure YearlyStats where
  person_id : Nat
  year : Nat
  months : Nat
  total_gross : Rat
  total_net : Rat
  avg_net : Rat
  insurance_total : Rat
  tax_total : Rat
  allowances_total : Rat
  bonuses_total : Rat
  total_actual_take_home : Rat
  total_non_cash_benefits : Rat
deriving DecidableEq

/-- `yearly_stats`: per-person sums over the year's records (the caller
supplies the records already filtered to the requested year). -/
def yearly_stats (year : Nat) (recs : List (SalaryRecord × List CustomField)) :
    List YearlyStats :=
  (yearlyStatsMap recs).map (fun ps =>
    let s := ps.2
    let avg_net := if s.months ≠ 0 then s.net / (s.months : Rat) else 0
    { person_id := ps.1, year := year, months := s.months,
      total_gross := s.gross, total_net := s.net, avg_net := avg_net,
      insurance_total := s.insurance, tax_total := s.tax,
      allowances_total := s.allowances, bonuses_total := s.bonuses,
      total_actual_take_home := s.actual_take_home,
      total_non_cash_benefits := s.non_cash_benefits })

/-- Family summary result (`FamilySummary` schema; `by_person` is the
`totals` dict in insertion order). -/
structure FamilySummary where
  year : Nat
  persons : List Nat
  total_gross : Rat
  total_net : Rat
  insurance_total : Rat
  tax_total : Rat
  by_person : List (Nat × Rat)
deriving DecidableEq

/-- Model of Python `totals[k] += v` on an association list whose keys
were fixed at initialisation.  A missing key raises `KeyError` in the
source; that case is unreachable because the records are pre-filtered to
the initialised person ids, and is modelled as a no-op. -/
def dictAddExisting (m : List (Nat × Rat)) (k : Nat) (v : Rat) : List (Nat × Rat) :=
  match m with
  | [] => []
  | (k0, x) :: t =>
      if k0 = k then (k0, x + v) :: t else (k0, x) :: dictAddExisting t k v

/-- Accumulator of the loop in `family_summary`. -/
structure FamAcc where
  totals : List (Nat × Rat)
  insurance_total : Rat
  tax_total : Rat
  total_gross : Rat
  total_net : Rat

/-- Body of the loop in `family_summary`: fold one record into the
family-wide accumulator. -/
def familyStep (acc : FamAcc) (r : SalaryRecord) (custom : List CustomField) : FamAcc :=
  let cs := _custom_sums custom
  let custom_cash := cs.1
  let custom_deduction := cs.2.2
  let insurance_calc := r.pension_insurance + r.medical_insurance
    + r.unemployment_insurance + r.critical_illness_insurance
    + r.enterprise_annuity + r.housing_fund
  let cash_income := r.base_salary + r.performance_salary
    + _allowances_sum_full r + r.other_income + custom_cash
  let deductions_total := _deductions_sum r + custom_deduction
  let actual_take_home := cash_income - deductions_total - r.tax
  { totals := dictAddExisting acc.totals r.person_id actual_take_home,
    insurance_total := acc.insurance_total + insurance_calc,
    tax_total := acc.tax_total + r.tax,
    total_gross := acc.total_gross + cash_income,
    total_net := acc.total_net + actual_take_home }

/-- `family_summary`: family-wide totals for a year plus per-person
take-home totals (`totals` starts with every owned person at 0). -/
def family_summary (year : Nat) (person_ids : List Nat)
    (recs : List (SalaryRecord × List CustomField)) : FamilySummary :=
  let init : FamAcc :=
    { totals := person_ids.map (fun pid => (pid, (0 : Rat))),
      insurance_total := 0, tax_total := 0, total_gross := 0, total_net := 0 }
  let acc := recs.foldl (fun a rc => familyStep a rc.1 rc.2) init
  { year := year, persons := person_ids,
    total_gross := acc.total_gross, total_net := acc.total_net,
    insurance_total := acc.insurance_total, tax_total := acc.tax_total,
    by_person := acc.totals }

/-- One listed custom item in the income composition (`BreakdownItem`). -/
structure BreakdownItem where
  key : String
  label : String
  amount : Rat
deriving DecidableEq

/-- Accumulator of the custom-field loop inside `income_composition`. -/
structure ICAcc where
  custom_income : Rat
  custom_non_cash : Rat
  custom_cash : Rat
  custom_items : List BreakdownItem
  custom_non_cash_items : List BreakdownItem
deriving DecidableEq

/-- Python `a or b or c` fallback chain on strings (empty string is falsy). -/
def strFallback (a b c : String) : String :=
  if a ≠ "" then a else if b ≠ "" then b else c

/-- Body of the custom-field loop inside `income_composition`:
non-income entries are skipped; income entries are split by the
non-cash flag and nonzero amounts are listed individually. -/
def icStep (a : ICAcc) (cf : CustomField) : ICAcc :=
  if cf.field_type ≠ FieldType.income then a
  else
    let a1 := { a with custom_income := a.custom_income + cf.amount }
    if cf.is_non_cash then
      { a1 with
        custom_non_cash := a1.custom_non_cash + cf.amount,
        custom_non_cash_items :=
          if cf.amount ≠ 0 then
            a1.custom_non_cash_items
              ++ [{ key := cf.field_key,
                    label := strFallback cf.label cf.field_key "自定义福利",
                    amount := cf.amount }]
          else a1.custom_non_cash_items }
    else
      { a1 with
        custom_cash := a1.custom_cash + cf.amount,
        custom_items :=
          if cf.amount ≠ 0 then
            a1.custom_items
              ++ [{ key := cf.field_key,
                    label := strFallback cf.label cf.field_key "自定义收入",
                    amount := cf.amount }]
          else a1.custom_items }

/-- Output row of the income composition view (`IncomeComposition`). -/
structure IncomeComposition where
  person_id : Nat
  year : Nat
  month : Nat
  base_salary : Rat
  performance_salary : Rat
  high_temp_allowance : Rat
  low_temp_allowance : Rat
  computer_allowance : Rat
  communication_allowance : Rat
  comprehensive_allowance : Rat
  meal_allowance : Rat
  mid_autumn_benefit : Rat
  dragon_boat_benefit : Rat
  spring_festival_benefit : Rat
  other_income : Rat
  other_income_base : Rat
  non_cash_benefits : Rat
  custom_income_items : List BreakdownItem
  custom_non_cash_items : List BreakdownItem
  total_income : Rat
  base_salary_percent : Rat
  performance_percent : Rat
  allowances_percent : Rat
  benefits_percent : Rat
  other_percent : Rat
deriving DecidableEq

/-- Body of the loop in `income_composition`: the row built for one
record and its custom field entries. -/
def incomeCompositionRow (r : SalaryRecord) (custom : List CustomField) :
    IncomeComposition :=
  let a := custom.foldl icStep
    { custom_income := 0, custom_non_cash := 0, custom_cash := 0,
      custom_items := [], custom_non_cash_items := [] }
  let allowances := _allowances_sum_full r
  let base_other := r.other_income
  let benefits := _benefits_sum r + a.custom_non_cash
  let other_income := base_other + a.custom_cash
  let total_income := r.base_salary + r.performance_salary + allowances
    + benefits + other_income
  let base_salary_percent :=
    if 0 < total_income then r.base_salary / total_income * 100 else 0
  let performance_percent :=
    if 0 < total_income then r.performance_salary / total_income * 100 else 0
  let allowances_percent :=
    if 0 < total_income then allowances / total_income * 100 else 0
  let benefits_percent :=
    if 0 < total_income then benefits / total_income * 100 else 0
  let other_percent :=
    if 0 < total_income then other_income / total_income * 100 else 0
  { person_id := r.person_id, year := r.year, month := r.month,
    base_salary := r.base_salary, performance_salary := r.performance_salary,
    high_temp_allowance := r.high_temp_allowance,
    low_temp_allowance := r.low_temp_allowance,
    computer_allowance := r.computer_allowance,
    communication_allowance := r.communication_allowance,
    comprehensive_allowance := r.comprehensive_allowance,
    meal_allowance := r.meal_allowance,
    mid_autumn_benefit := r.mid_autumn_benefit,
    dragon_boat_benefit := r.dragon_boat_benefit,
    spring_festival_benefit := r.spring_festival_benefit,
    other_income := other_income, other_income_base := base_other,
    non_cash_benefits := benefits,
    custom_income_items := a.custom_items,
    custom_non_cash_items := a.custom_non_cash_items,
    total_income := total_income,
    base_salary_percent := base_salary_percent,
    performance_percent := performance_percent,
    allowances_percent := allowances_percent,
    benefits_percent := benefits_percent,
    other_percent := other_percent }

/-- `income_composition`: one composition row per record. -/
def income_composition (recs : List (SalaryRecord × List CustomField)) :
    List IncomeComposition :=
  recs.map (fun rc => incomeCompositionRow rc.1 rc.2)

/-- Per-category deduction totals of `deductions_breakdown` (the Python
`totals` / `monthly_map[k]` dicts, keyed by the nine fixed category keys). -/
structure DedTotals where
  pension_insurance : Rat
  medical_insurance : Rat
  unemployment_insurance : Rat
  critical_illness_insurance : Rat
  enterprise_annuity : Rat
  housing_fund : Rat
  other_deductions : Rat
  labor_union_fee : Rat
  performance_deduction : Rat
deriving DecidableEq

/-- All-zero category totals. -/
def dedZero : DedTotals :=
  { pension_insurance := 0, medical_insurance := 0, unemployment_insurance := 0,
    critical_illness_insurance := 0, enterprise_annuity := 0, housing_fund := 0,
    other_deductions := 0, labor_union_fee := 0, performance_deduction := 0 }

/-- Componentwise addition of category totals. -/
def dedAdd (a b : DedTotals) : DedTotals :=
  { pension_insurance := a.pension_insurance + b.pension_insurance,
    medical_insurance := a.medical_insurance + b.medical_insurance,
    unemployment_insurance := a.unemployment_insurance + b.unemployment_insurance,
    critical_illness_insurance := a.critical_illness_insurance + b.critical_illness_insurance,
    enterprise_annuity := a.enterprise_annuity + b.enterprise_annuity,
    housing_fund := a.housing_fund + b.housing_fund,
    other_deductions := a.other_deductions + b.other_deductions,
    labor_union_fee := a.labor_union_fee + b.labor_union_fee,
    performance_deduction := a.performance_deduction + b.performance_deduction }

/-- Custom-deduction total of one record's custom entries, as summed by
the per-record loop in `deductions_breakdown`. -/
def customDeductionSum (custom : List CustomField) : Rat :=
  custom.foldl
    (fun acc cf =>
      if cf.field_type = FieldType.deduction then acc + cf.amount else acc) 0

/-- Per-record contribution to the category totals: each category takes
its own field, and custom deductions are folded into `other_deductions`. -/
def dedOf (r : SalaryRecord) (custom : List CustomField) : DedTotals :=
  let custom_deduction := customDeductionSum custom
  { pension_insurance := r.pension_insurance,
    medical_insurance := r.medical_insurance,
    unemployment_insurance := r.unemployment_insurance,
    critical_illness_insurance := r.critical_illness_insurance,
    enterprise_annuity := r.enterprise_annuity,
    housing_fund := r.housing_fund,
    other_deductions := r.other_deductions + custom_deduction,
    labor_union_fee := r.labor_union_fee,
    performance_deduction := r.performance_deduction }

/-- `sum(totals.values())`: the grand total across the nine categories. -/
def dedGrand (t : DedTotals) : Rat :=
  t.pension_insurance + t.medical_insurance + t.unemployment_insurance
    + t.critical_illness_insurance + t.enterprise_annuity + t.housing_fund
    + t.other_deductions + t.labor_union_fee + t.performance_deduction

/-- One summary entry of the deductions breakdown
(`DeductionsBreakdownItem`). -/
structure DeductionsBreakdownItem where
  category : String
  amount : Rat
  percent : Rat
deriving DecidableEq

/-- The nine-item summary list: amount plus percent of the grand total
per category (0 when the grand total is not positive). -/
def dedSummary (t : DedTotals) : List DeductionsBreakdownItem :=
  let grand_total := dedGrand t
  let pct := fun (amount : Rat) =>
    if 0 < grand_total then amount / grand_total * 100 else 0
  [ { category := "养老保险", amount := t.pension_insurance, percent := pct t.pension_insurance },
    { category := "医疗保险", amount := t.medical_insurance, percent := pct t.medical_insurance },
    { category := "失业保险", amount := t.unemployment_insurance, percent := pct t.unemployment_insurance },
    { category := "大病互助保险", amount := t.critical_illness_insurance, percent := pct t.critical_illness_insurance },
    { category := "企业年金", amount := t.enterprise_annuity, percent := pct t.enterprise_annuity },
    { category := "住房公积金", amount := t.housing_fund, percent := pct t.housing_fund },
    { category := "其他扣除", amount := t.other_deductions, percent := pct t.other_deductions },
    { category := "工会", amount := t.labor_union_fee, percent := pct t.labor_union_fee },
    { category := "绩效扣除", amount := t.performance_deduction, percent := pct t.performance_deduction } ]

/-- One monthly point of the deductions breakdown (`DeductionsMonthly`). -/
structure DeductionsMonthly where
  year : Nat
  month : Nat
  pension_insurance : Rat
  medical_insurance : Rat
  unemployment_insurance : Rat
  critical_illness_insurance : Rat
  enterprise_annuity : Rat
  housing_fund : Rat
  other_deductions : Rat
  labor_union_fee : Rat
  performance_deduction : Rat
  total : Rat
deriving DecidableEq

/-- The deductions breakdown result (`DeductionsBreakdown`). -/
structure DeductionsBreakdown where
  summary : List DeductionsBreakdownItem
  monthly : List DeductionsMonthly
deriving DecidableEq

/-- The `monthly_map` of `deductions_breakdown`: category totals grouped
by (year, month) in first-seen order. -/
def dedMonthlyMap (recs : List (SalaryRecord × List CustomField)) :
    List ((Nat × Nat) × DedTotals) :=
  recs.foldl
    (fun m rc =>
      dictUpd dedZero m (rc.1.year, rc.1.month) (fun t => dedAdd t (dedOf rc.1 rc.2)))
    []

/-- Ordering of (year, month) keys used by `sorted(monthly_map.keys())`. -/
def ymLe (a b : Nat × Nat) : Bool :=
  decide (a.1 < b.1) || (decide (a.1 = b.1) && decide (a.2 ≤ b.2))

/-- Insert a key into an already sorted key list. -/
def insertYm (x : Nat × Nat) : List (Nat × Nat) → List (Nat × Nat)
  | [] => [x]
  | y :: t => if ymLe x y then x :: y :: t else y :: insertYm x t

/-- Ascending sort of (year, month) keys (`sorted(...)` in the source). -/
def sortYm (l : List (Nat × Nat)) : List (Nat × Nat) := l.foldr insertYm []

/-- `deductions_breakdown`: nine-category summary plus a monthly series
(one point per distinct year-month, ascending). -/
def deductions_breakdown (recs : List (SalaryRecord × List CustomField)) :
    DeductionsBreakdown :=
  let totals := recs.foldl (fun t rc => dedAdd t (dedOf rc.1 rc.2)) dedZero
  let summary := dedSummary totals
  let mm := dedMonthlyMap recs
  let monthly := (sortYm (mm.map Prod.fst)).map (fun k =>
    let data := dictGet dedZero mm k
    { year := k.1, month := k.2,
      pension_insurance := data.pension_insurance,
      medical_insurance := data.medical_insurance,
      unemployment_insurance := data.unemployment_insurance,
      critical_illness_insurance := data.critical_illness_insurance,
      enterprise_annuity := data.enterprise_annuity,
      housing_fund := data.housing_fund,
      other_deductions := data.other_deductions,
      labor_union_fee := data.labor_union_fee,
      performance_deduction := data.performance_deduction,
      total := dedGrand data })
  { summary := summary, monthly := monthly }

/-- One point of the cumulative contributions series
(`ContributionsCumulativePoint`). -/
structure ContributionsCumulativePoint where
  year : Nat
  month : Nat
  pension_cumulative : Rat
  medical_cumulative : Rat
  housing_fund_cumulative : Rat
deriving DecidableEq

/-- The cumulative contributions result (`ContributionsCumulative`,
whose shape is fixed by the constructor call in the route). -/
structure ContributionsCumulative where
  person_id : Nat
  person_name : String
  pension_history : Rat
  medical_history : Rat
  housing_fund_history : Rat
  points : List ContributionsCumulativePoint
  pension_system_total : Rat
  medical_system_total : Rat
  housing_fund_system_total : Rat
  pension_total : Rat
  medical_total : Rat
  housing_fund_total : Rat
deriving DecidableEq

/-- Stable insertion into a list already sorted by year-month key. -/
def insertByYm (x : SalaryRecord) : List SalaryRecord → List SalaryRecord
  | [] => [x]
  | y :: t => if recYm x ≤ recYm y then x :: y :: t else y :: insertByYm x t

/-- Stable sort by year-month key (`all_recs.sort(key=...)`). -/
def sortByYm (l : List SalaryRecord) : List SalaryRecord := l.foldr insertByYm []

/-- Base offset of one cumulative line: the history balance plus the
contribution `f r` of every record strictly before the range start. -/
def baseOffset (history : Rat) (recs : List SalaryRecord) (start_num : Int)
    (f : SalaryRecord → Rat) : Rat :=
  recs.foldl (fun b r => if recYm r < start_num then b + f r else b) history

/-- The in-range point loop of `contributions_cumulative`: records
outside the bounds are skipped, the three running sums advance together. -/
def cumPoints (start_num end_num : Int) (cur_p cur_m cur_h : Rat) :
    List SalaryRecord → List ContributionsCumulativePoint
  | [] => []
  | r :: t =>
      if recYm r < start_num ∨ end_num < recYm r then
        cumPoints start_num end_num cur_p cur_m cur_h t
      else
        let p2 := cur_p + r.pension_insurance
        let m2 := cur_m + r.medical_insurance
        let h2 := cur_h + r.housing_fund
        { year := r.year, month := r.month,
          pension_cumulative := p2, medical_cumulative := m2,
          housing_fund_cumulative := h2 } :: cumPoints start_num end_num p2 m2 h2 t

/-- Bounds used by `contributions_cumulative`: `if range:` is falsy for
an absent or empty string, otherwise the string is parsed. -/
def rangeBounds (rng : Option String) : Int × Int :=
  match rng with
  | some s => if s = "" then (0, 999999) else _parse_range s
  | none => (0, 999999)

/-- `contributions_cumulative`: running pension/medical/housing-fund
series over the requested range, seeded with history plus pre-range
contributions, plus all-time totals. -/
def contributions_cumulative (p : Person) (all_recs : List SalaryRecord)
    (rng : Option String) : ContributionsCumulative :=
  let sorted := sortByYm all_recs
  let se := rangeBounds rng
  let start_num := se.1
  let end_num := se.2
  let base_pension := baseOffset p.pension_history sorted start_num (fun r => r.pension_insurance)
  let base_medical := baseOffset p.medical_history sorted start_num (fun r => r.medical_insurance)
  let base_housing := baseOffset p.housing_fund_history sorted start_num (fun r => r.housing_fund)
  let points := cumPoints start_num end_num base_pension base_medical base_housing sorted
  let pension_system_total := (sorted.map (fun r => r.pension_insurance)).sum
  let medical_system_total := (sorted.map (fun r => r.medical_insurance)).sum
  let housing_system_total := (sorted.map (fun r => r.housing_fund)).sum
  { person_id := p.id, person_name := p.name,
    pension_history := p.pension_history,
    medical_history := p.medical_history,
    housing_fund_history := p.housing_fund_history,
    points := points,
    pension_system_total := pension_system_total,
    medical_system_total := medical_system_total,
    housing_fund_system_total := housing_system_total,
    pension_total := p.pension_history + pension_system_total,
    medical_total := p.medical_history + medical_system_total,
    housing_fund_total := p.housing_fund_history + housing_system_total }

/-- Result of the payroll calculator (`compute_payroll`). -/
structure PayrollResult where
  total_income : Rat
  total_deductions : Rat
  gross_income : Rat
  net_income : Rat
  non_cash_benefits : Rat
  actual_take_home : Rat
  tax : Rat
deriving DecidableEq

/-- Modelled from the spec: `compute_payroll` lives in
`backend/app/services/payroll.py`, which is not among the provided
source files (only its import and call sites in the salary routes are);
this definition follows spec section 4.1 word for word:
total income is base plus performance plus all custom income (cash and
non-cash), total deductions are the six insurance/fund amounts plus
custom deductions, gross equals total income, net is total income minus
total deductions minus tax, non-cash benefits are the non-cash custom
income entries, and actual take-home is net minus non-cash benefits. -/
def compute_payroll (base_salary performance_salary pension_insurance
    medical_insurance unemployment_insurance critical_illness_insurance
    enterprise_annuity housing_fund tax : Rat)
    (custom_fields : List CustomField) : PayrollResult :=
  let cs := _custom_sums custom_fields
  let custom_income := cs.1 + cs.2.1
  let custom_deduction := cs.2.2
  let non_cash_benefits := cs.2.1
  let total_income := base_salary + performance_salary + custom_income
  let total_deductions := pension_insurance + medical_insurance
    + unemployment_insurance + critical_illness_insurance
    + enterprise_annuity + housing_fund + custom_deduction
  let net_income := total_income - total_deductions - tax
  let actual_take_home := net_income - non_cash_benefits
  { total_income := total_income, total_deductions := total_deductions,
    gross_income := total_income, net_income := net_income,
    non_cash_benefits := non_cash_benefits,
    actual_take_home := actual_take_home, tax := tax }

/-- Sum of the cash custom income entries, written directly from the
spec's words (custom income entries that are not non-cash). -/
def specCustomCash (custom : List CustomField) : Rat :=
  ((custom.filter (fun cf => decide (cf.field_type = FieldType.income) && !cf.is_non_cash)).map
    (fun cf => cf.amount)).sum

/-- Sum of the non-cash custom income entries, from the spec's words. -/
def specCustomNonCash (custom : List CustomField) : Rat :=
  ((custom.filter (fun cf => decide (cf.field_type = FieldType.income) && cf.is_non_cash)).map
    (fun cf => cf.amount)).sum

/-- Sum of the custom deduction entries, from the spec's words. -/
def specCustomDeduction (custom : List CustomField) : Rat :=
  ((custom.filter (fun cf => decide (cf.field_type = FieldType.deduction))).map
    (fun cf => cf.amount)).sum

/-- Cash income as the spec words it: base + performance + the full
allowances sum (five allowances plus meal) + other income + cash custom
income; festival benefits and non-cash custom income excluded. -/
def specCashIncome (r : SalaryRecord) (custom : List CustomField) : Rat :=
  r.base_salary + r.performance_salary
    + (r.high_temp_allowance + r.low_temp_allowance + r.meal_allowance
       + r.computer_allowance + r.communication_allowance + r.comprehensive_allowance)
    + r.other_income + specCustomCash custom

/-- Deductions total as the spec words it: the six insurance/fund fields
plus other deductions, labor union fee, performance deduction and the
custom deduction entries. -/
def specDeductionsTotal (r : SalaryRecord) (custom : List CustomField) : Rat :=
  r.pension_insurance + r.medical_insurance + r.unemployment_insurance
    + r.critical_illness_insurance + r.enterprise_annuity + r.housing_fund
    + r.other_deductions + r.labor_union_fee + r.performance_deduction
    + specCustomDeduction custom

/-- Per-category sums over a batch of records, from the spec's words:
every fixed category sums its own field and the custom deduction entries
go into `other_deductions`. -/
def dedSumOf (recs : List (SalaryRecord × List CustomField)) : DedTotals :=
  { pension_insurance := (recs.map (fun rc => rc.1.pension_insurance)).sum,
    medical_insurance := (recs.map (fun rc => rc.1.medical_insurance)).sum,
    unemployment_insurance := (recs.map (fun rc => rc.1.unemployment_insurance)).sum,
    critical_illness_insurance := (recs.map (fun rc => rc.1.critical_illness_insurance)).sum,
    enterprise_annuity := (recs.map (fun rc => rc.1.enterprise_annuity)).sum,
    housing_fund := (recs.map (fun rc => rc.1.housing_fund)).sum,
    other_deductions := (recs.map (fun rc => rc.1.other_deductions + specCustomDeduction rc.2)).sum,
    labor_union_fee := (recs.map (fun rc => rc.1.labor_union_fee)).sum,
    performance_deduction := (recs.map (fun rc => rc.1.performance_deduction)).sum }

/-- Running cumulative sums of a list, starting from a base value:
each output element is the base plus the sum of the inputs so far. -/
def cumFrom (b : Rat) : List Rat → List Rat
  | [] => []
  | x :: t => (b + x) :: cumFrom (b + x) t

/-- Concrete record for the positive-total income composition witness. -/
def icRecPos : SalaryRecord :=
  { person_id := 1, year := 2024, month := 1, base_salary := 100 }

/-- Concrete all-zero record for the zero-total income composition witness. -/
def icRecZero : SalaryRecord :=
  { person_id := 1, year := 2024, month := 2 }

/-- Concrete yearly-stats witness records: three months for person 1
with nets 100, 200 and 300. -/
def ywRecs : List (SalaryRecord × List CustomField) :=
  [ ({ person_id := 1, year := 2024, month := 1, base_salary := 100 }, []),
    ({ person_id := 1, year := 2024, month := 2, base_salary := 200 }, []),
    ({ person_id := 1, year := 2024, month := 3, base_salary := 300 }, []) ]

/-- Expected yearly row for `ywRecs`. -/
def ywRow : YearlyStats :=
  { person_id := 1, year := 2024, months := 3, total_gross := 600,
    total_net := 600, avg_net := 200, insurance_total := 0, tax_total := 0,
    allowances_total := 0, bonuses_total := 0, total_actual_take_home := 600,
    total_non_cash_benefits := 0 }

/-- Concrete records for the deductions-breakdown witnesses: one record
with a fixed other-deduction of 5 and a custom deduction entry of 7. -/
def dwRecs : List (SalaryRecord × List CustomField) :=
  [ ({ person_id := 1, year := 2024, month := 1, other_deductions := 5 },
     [{ field_type := FieldType.deduction, is_non_cash := false, amount := 7 }]) ]

/-- Expected monthly deductions point for `dwRecs`. -/
def dwPt : DeductionsMonthly :=
  { year := 2024, month := 1, pension_insurance := 0, medical_insurance := 0,
    unemployment_insurance := 0, critical_illness_insurance := 0,
    enterprise_annuity := 0, housing_fund := 0, other_deductions := 12,
    labor_union_fee := 0, performance_deduction := 0, total := 12 }

/-- Concrete family-summary witness records: person 1 nets 10,
person 2 nets 20. -/
def fwRecs : List (SalaryRecord × List CustomField) :=
  [ ({ person_id := 1, year := 2024, month := 1, base_salary := 10 }, []),
    ({ person_id := 2, year := 2024, month := 1, base_salary := 20 }, []) ]

/-- Concrete person for the cumulative-contributions counterexample:
pension history 100. -/
def cwPerson : Person := { id := 1, name := "p", pension_history := 100 }

/-- First concrete record (2024-01, pension contribution 10). -/
def cwRec1 : SalaryRecord :=
  { person_id := 1, year := 2024, month := 1, pension_insurance := 10 }

/-- Second concrete record (2024-02, pension contribution 20). -/
def cwRec2 : SalaryRecord :=
  { person_id := 1, year := 2024, month := 2, pension_insurance := 20 }

theorem custom_sums_go (l : List CustomField) (a b c : Rat) :
    l.foldl
      (fun acc cf =>
        match cf.field_type with
        | FieldType.income =>
            if cf.is_non_cash then (acc.1, acc.2.1 + cf.amount, acc.2.2)
            else (acc.1 + cf.amount, acc.2.1, acc.2.2)
        | FieldType.deduction => (acc.1, acc.2.1, acc.2.2 + cf.amount))
      (a, b, c)
      = (a + specCustomCash l, b + specCustomNonCash l, c + specCustomDeduction l) := by
  induction l generalizing a b c with
  | nil => simp [specCustomCash, specCustomNonCash, specCustomDeduction]
  | cons cf t ih =>
      cases hft : cf.field_type <;> cases hnc : cf.is_non_cash <;>
        simp [List.foldl_cons, hft, hnc, ih, specCustomCash, specCustomNonCash,
          specCustomDeduction, List.filter_cons, add_assoc]

theorem custom_sums_eq (l : List CustomField) :
    _custom_sums l = (specCustomCash l, specCustomNonCash l, specCustomDeduction l) := by
  simpa [_custom_sums] using custom_sums_go l 0 0 0

theorem customDedSum_go (l : List CustomField) (a : Rat) :
    l.foldl (fun acc cf => if cf.field_type = FieldType.deduction then acc + cf.amount else acc) a
      = a + specCustomDeduction l := by
  induction l generalizing a with
  | nil => simp [specCustomDeduction]
  | cons cf t ih =>
      by_cases h : cf.field_type = FieldType.deduction <;>
        simp [List.foldl_cons, h, ih, specCustomDeduction, List.filter_cons, add_assoc]

theorem customDeductionSum_eq (l : List CustomField) :
    customDeductionSum l = specCustomDeduction l := by
  simpa [customDeductionSum] using customDedSum_go l 0

/-- Claim C1: the date-range parser is lenient and never fails; it maps
2024-03 to the single month, 2024-01..2024-06 to the six-month range,
the empty string to the unbounded range, and the unparseable token bogus
to the start fallback of year 0 month 1 on both bounds; however for the
bare four-digit year 2024 the no-separator branch parses it with
is_start = true and duplicates that single bound, returning
(202401, 202401) instead of the whole year (202401, 202412) documented
by the function's own docstring and stated by the claim. -/
theorem parse_range_documented_cases :
    _parse_range "2024" = (202401, 202401) ∧
    _parse_range "2024" ≠ (202401, 202412) ∧
    _parse_range "2024-03" = (202403, 202403) ∧
    _parse_range "2024-01..2024-06" = (202401, 202406) ∧
    _parse_range "" = (0, 999999) ∧
    _parse_range "bogus" = (_ym_num 0 1, _ym_num 0 1) := by decide

/-- Claim C2: in the monthly, yearly and family views, the per-record
cash income equals base salary + performance salary + the full
allowances sum (the five allowances plus meal allowance) + other income
+ cash custom income, with festival benefits and non-cash custom income
excluded, and the per-record actual take-home equals that cash income
minus the deductions total minus tax. -/
theorem aggregator_cash_income_take_home (r : SalaryRecord) (custom : List CustomField)
    (s : YAcc) (acc : FamAcc) :
    (monthlyRow r custom).gross_income = specCashIncome r custom ∧
    (monthlyRow r custom).actual_take_home
      = specCashIncome r custom - specDeductionsTotal r custom - r.tax ∧
    (yUpdate s r custom).gross = s.gross + specCashIncome r custom ∧
    (yUpdate s r custom).net
      = s.net + (specCashIncome r custom - specDeductionsTotal r custom - r.tax) ∧
    (familyStep acc r custom).total_gross = acc.total_gross + specCashIncome r custom ∧
    (familyStep acc r custom).total_net
      = acc.total_net + (specCashIncome r custom - specDeductionsTotal r custom - r.tax) := by
  refine ⟨?_, ?_, ?_, ?_, ?_, ?_⟩ <;>
    simp [monthlyRow, yUpdate, familyStep, specCashIncome, specDeductionsTotal,
      _allowances_sum_full, _deductions_sum, _benefits_sum, custom_sums_eq]

/-- Claim C3: for every input to the payroll calculator, the outputs
satisfy exactly actual_take_home = total_income − total_deductions − tax
− non_cash_benefits, with net_income = total_income − total_deductions −
tax and actual_take_home = net_income − non_cash_benefits. -/
theorem compute_payroll_identities (b p pe me un cr an ho tx : Rat)
    (custom : List CustomField) :
    (compute_payroll b p pe me un cr an ho tx custom).actual_take_home
      = (compute_payroll b p pe me un cr an ho tx custom).total_income
        - (compute_payroll b p pe me un cr an ho tx custom).total_deductions
        - (compute_payroll b p pe me un cr an ho tx custom).tax
        - (compute_payroll b p pe me un cr an ho tx custom).non_cash_benefits ∧
    (compute_payroll b p pe me un cr an ho tx custom).net_income
      = (compute_payroll b p pe me un cr an ho tx custom).total_income
        - (compute_payroll b p pe me un cr an ho tx custom).total_deductions
        - (compute_payroll b p pe me un cr an ho tx custom).tax ∧
    (compute_payroll b p pe me un cr an ho tx custom).actual_take_home
      = (compute_payroll b p pe me un cr an ho tx custom).net_income
        - (compute_payroll b p pe me un cr an ho tx custom).non_cash_benefits := by
  refine ⟨?_, ?_, ?_⟩ <;> simp [compute_payroll]

/-- Claim C10: every monthly statistics row carries the same value in
net_income and actual_take_home, computed once as cash income minus the
deductions total minus tax. -/
theorem monthly_net_income_eq_take_home (r : SalaryRecord) (custom : List CustomField) :
    (monthlyRow r custom).net_income = (monthlyRow r custom).actual_take_home ∧
    (monthlyRow r custom).actual_take_home
      = (monthlyRow r custom).gross_income
        - (_deductions_sum r + (_custom_sums custom).2.2) - r.tax := by
  exact ⟨rfl, rfl⟩

theorem five_percent_sum (b p al be ot t : Rat) (ht : t = b + p + al + be + ot)
    (h : 0 < t) :
    b / t * 100 + p / t * 100 + al / t * 100 + be / t * 100 + ot / t * 100 = 100 := by
  have hne : t ≠ 0 := ne_of_gt h
  field_simp
  linarith [ht]

/-- Claim C5: in the income composition row, whenever total income is
not positive all five percentage fields are exactly 0 (the division is
guarded), and whenever total income is positive the five percentages sum
to at most 100 (in the exact-arithmetic model they sum to exactly 100). -/
theorem income_composition_percent_guard (r : SalaryRecord) (custom : List CustomField) :
    ((incomeCompositionRow r custom).total_income ≤ 0 →
      (incomeCompositionRow r custom).base_salary_percent = 0 ∧
      (incomeCompositionRow r custom).performance_percent = 0 ∧
      (incomeCompositionRow r custom).allowances_percent = 0 ∧
      (incomeCompositionRow r custom).benefits_percent = 0 ∧
      (incomeCompositionRow r custom).other_percent = 0) ∧
    (0 < (incomeCompositionRow r custom).total_income →
      (incomeCompositionRow r custom).base_salary_percent
        + (incomeCompositionRow r custom).performance_percent
        + (incomeCompositionRow r custom).allowances_percent
        + (incomeCompositionRow r custom).benefits_percent
        + (incomeCompositionRow r custom).other_percent ≤ 100) := by
  constructor
  · intro h
    have h' : ¬ (0 < (incomeCompositionRow r custom).total_income) := not_lt.mpr h
    simp only [incomeCompositionRow] at h' ⊢
    simp [if_neg h']
  · intro h
    simp only [incomeCompositionRow] at h ⊢
    simp only [if_pos h]
    exact le_of_eq (five_percent_sum _ _ _ _ _ _ rfl h)

/-- Witness for claim C5: a record with base salary 100 has positive
total income and percentages summing to at most 100; an all-zero record
has zero total income and all five percentages exactly 0. -/
theorem income_composition_percent_guard_witness :
    ((incomeCompositionRow icRecPos []).base_salary_percent
      + (incomeCompositionRow icRecPos []).performance_percent
      + (incomeCompositionRow icRecPos []).allowances_percent
      + (incomeCompositionRow icRecPos []).benefits_percent
      + (incomeCompositionRow icRecPos []).other_percent ≤ 100) ∧
    ((incomeCompositionRow icRecZero []).base_salary_percent = 0 ∧
     (incomeCompositionRow icRecZero []).performance_percent = 0 ∧
     (incomeCompositionRow icRecZero []).allowances_percent = 0 ∧
     (incomeCompositionRow icRecZero []).benefits_percent = 0 ∧
     (incomeCompositionRow icRecZero []).other_percent = 0) :=
  ⟨(income_composition_percent_guard icRecPos []).2
     (by norm_num [incomeCompositionRow, icRecPos, icStep, _allowances_sum_full, _benefits_sum]),
   (income_composition_percent_guard icRecZero []).1
     (by norm_num [incomeCompositionRow, icRecZero, icStep, _allowances_sum_full, _benefits_sum])⟩

theorem dictGet_dictUpd {κ β : Type} [DecidableEq κ] (init : β) (m : List (κ × β))
    (k k2 : κ) (f : β → β) :
    dictGet init (dictUpd init m k f) k2
      = if k = k2 then f (dictGet init m k) else dictGet init m k2 := by
  induction m with
  | nil => simp [dictUpd, dictGet]
  | cons e t ih =>
      obtain ⟨k0, v⟩ := e
      by_cases h0 : k0 = k <;> by_cases h2 : k0 = k2 <;> by_cases h : k = k2 <;>
        simp_all [dictUpd, dictGet]

theorem dictUpd_keys {κ β : Type} [DecidableEq κ] (init : β) (m : List (κ × β))
    (k k2 : κ) (f : β → β) :
    k2 ∈ (dictUpd init m k f).map Prod.fst ↔ k2 ∈ m.map Prod.fst ∨ k2 = k := by
  induction m with
  | nil => simp [dictUpd]
  | cons e t ih =>
      obtain ⟨k0, v⟩ := e
      by_cases h0 : k0 = k <;> simp [dictUpd, h0, ih] <;> tauto

theorem dictUpd_nodupKeys {κ β : Type} [DecidableEq κ] (init : β) (m : List (κ × β))
    (k : κ) (f : β → β) (h : (m.map Prod.fst).Nodup) :
    ((dictUpd init m k f).map Prod.fst).Nodup := by
  induction m with
  | nil => simp [dictUpd]
  | cons e t ih =>
      obtain ⟨k0, v⟩ := e
      simp only [List.map_cons, List.nodup_cons] at h
      by_cases h0 : k0 = k
      · simpa [dictUpd, h0, List.nodup_cons] using h
      · simp only [dictUpd, if_neg h0, List.map_cons, List.nodup_cons]
        refine ⟨?_, ih h.2⟩
        rw [dictUpd_keys]
        rintro (hk | rfl)
        · exact h.1 hk
        · exact h0 rfl

theorem dictGet_of_mem_nodup {κ β : Type} [DecidableEq κ] (init : β) (m : List (κ × β))
    (k : κ) (v : β) (hmem : (k, v) ∈ m) (hnd : (m.map Prod.fst).Nodup) :
    dictGet init m k = v := by
  induction m with
  | nil => cases hmem
  | cons e t ih =>
      obtain ⟨k0, v0⟩ := e
      simp only [List.map_cons, List.nodup_cons] at hnd
      rcases List.mem_cons.mp hmem with he | ht
      · obtain ⟨rfl, rfl⟩ := Prod.mk.injEq .. |>.mp he.symm
        simp [dictGet]
      · have hne : k0 ≠ k := by
          rintro rfl
          exact hnd.1 (List.mem_map_of_mem Prod.fst ht)
        simp [dictGet, hne, ih ht hnd.2]

theorem dedAdd_zero (t : DedTotals) : dedAdd t dedZero = t := by
  simp [dedAdd, dedZero]

theorem zero_dedAdd (t : DedTotals) : dedAdd dedZero t = t := by
  simp [dedAdd, dedZero]

theorem dedFold_eq (recs : List (SalaryRecord × List CustomField)) (t0 : DedTotals) :
    recs.foldl (fun t rc => dedAdd t (dedOf rc.1 rc.2)) t0 = dedAdd t0 (dedSumOf recs) := by
  induction recs generalizing t0 with
  | nil => simp [dedSumOf, dedAdd]
  | cons rc t ih =>
      simp only [List.foldl_cons, ih]
      simp [dedAdd, dedOf, dedSumOf, customDeductionSum_eq, add_assoc]

theorem dedSummary_amounts (t : DedTotals) :
    ((dedSummary t).map (fun i => i.amount)).sum = dedGrand t := by
  simp [dedSummary, dedGrand]
  ring

theorem dedSummary_props (t : DedTotals) :
    (∀ item ∈ dedSummary t,
        item.percent = if 0 < dedGrand t then item.amount / dedGrand t * 100 else 0) ∧
    (0 < dedGrand t → ((dedSummary t).map (fun i => i.percent)).sum = 100) ∧
    (dedGrand t = 0 → ∀ item ∈ dedSummary t, item.percent = 0) := by
  refine ⟨?_, ?_, ?_⟩
  · intro item h
    simp only [dedSummary, List.mem_cons, List.not_mem_nil, or_false] at h
    rcases h with rfl | rfl | rfl | rfl | rfl | rfl | rfl | rfl | rfl <;> rfl
  · intro h
    have hne : dedGrand t ≠ 0 := ne_of_gt h
    simp only [dedSummary, List.map_cons, List.map_nil, List.sum_cons, List.sum_nil,
      if_pos h]
    field_simp
    simp [dedGrand]
    ring
  · intro h item hmem
    have hnp : ¬ (0 < dedGrand t) := by rw [h]; exact lt_irrefl 0
    simp only [dedSummary, List.mem_cons, List.not_mem_nil, or_false] at hmem
    rcases hmem with rfl | rfl | rfl | rfl | rfl | rfl | rfl | rfl | rfl <;>
      simp [if_neg hnp]

/-- Claim C6: in the deductions breakdown summary, each of the nine
category percentages equals amount divided by the grand total times 100
when the grand total is positive, so the nine percentages sum to exactly
100 in that case, and every percentage is exactly 0 when the grand total
is 0. -/
theorem deductions_summary_percentages (recs : List (SalaryRecord × List CustomField)) :
    (∀ item ∈ (deductions_breakdown recs).summary,
        item.percent =
          if 0 < ((deductions_breakdown recs).summary.map (fun i => i.amount)).sum
          then item.amount / ((deductions_breakdown recs).summary.map (fun i => i.amount)).sum * 100
          else 0) ∧
    (0 < ((deductions_breakdown recs).summary.map (fun i => i.amount)).sum →
        ((deductions_breakdown recs).summary.map (fun i => i.percent)).sum = 100) ∧
    (((deductions_breakdown recs).summary.map (fun i => i.amount)).sum = 0 →
        ∀ item ∈ (deductions_breakdown recs).summary, item.percent = 0) := by
  have e1 : (deductions_breakdown recs).summary
      = dedSummary (recs.foldl (fun t rc => dedAdd t (dedOf rc.1 rc.2)) dedZero) := rfl
  rw [e1, dedSummary_amounts]
  exact dedSummary_props _

/-- Witness for claim C6: for a record batch with grand total 12, the
nine summary percentages sum to 100, and the other-deductions item
satisfies the percent formula; for an empty batch the grand total is 0
and every percentage is 0. -/
theorem deductions_summary_percentages_witness :
    (((deductions_breakdown dwRecs).summary.map (fun i => i.percent)).sum = 100) ∧
    (({ category := "其他扣除", amount := 12, percent := 100 : DeductionsBreakdownItem}).percent
      = if 0 < ((deductions_breakdown dwRecs).summary.map (fun i => i.amount)).sum
        then ({ category := "其他扣除", amount := 12, percent := 100 : DeductionsBreakdownItem}).amount
              / ((deductions_breakdown dwRecs).summary.map (fun i => i.amount)).sum * 100
        else 0) ∧
    (∀ item ∈ (deductions_breakdown ([] : List (SalaryRecord × List CustomField))).summary,
        item.percent = 0) := by
  have hpos : 0 < ((deductions_breakdown dwRecs).summary.map (fun i => i.amount)).sum := by
    norm_num [deductions_breakdown, dedSummary, dedGrand, dwRecs, dedAdd, dedOf, dedZero,
      customDeductionSum]
  have hmem : ({ category := "其他扣除", amount := 12, percent := 100 : DeductionsBreakdownItem})
      ∈ (deductions_breakdown dwRecs).summary := by
    norm_num [deductions_breakdown, dedSummary, dedGrand, dwRecs, dedAdd, dedOf, dedZero,
      customDeductionSum]
  have hzero : ((deductions_breakdown ([] : List (SalaryRecord × List CustomField))).summary.map
      (fun i => i.amount)).sum = 0 := by
    norm_num [deductions_breakdown, dedSummary, dedGrand, dedZero]
  exact ⟨(deductions_summary_percentages dwRecs).2.1 hpos,
    (deductions_summary_percentages dwRecs).1 _ hmem,
    (deductions_summary_percentages []).2.2 hzero⟩

theorem yearlyStatsMap_nodupKeys (recs : List (SalaryRecord × List CustomField)) :
    ((yearlyStatsMap recs).map Prod.fst).Nodup := by
  have h : ∀ (l : List (SalaryRecord × List CustomField)) (m : List (Nat × YAcc)),
      (m.map Prod.fst).Nodup →
      ((l.foldl (fun m rc => dictUpd yInit m rc.1.person_id (fun s => yUpdate s rc.1 rc.2)) m).map
        Prod.fst).Nodup := by
    intro l
    induction l with
    | nil => intro m hm; simpa using hm
    | cons rc t ih =>
        intro m hm
        exact ih _ (dictUpd_nodupKeys _ _ _ _ hm)
  simpa [yearlyStatsMap] using h recs [] (by simp)

theorem yearlyStatsMap_months (recs : List (SalaryRecord × List CustomField))
    (m : List (Nat × YAcc)) (pid : Nat) :
    (dictGet yInit
        (recs.foldl (fun m rc => dictUpd yInit m rc.1.person_id (fun s => yUpdate s rc.1 rc.2)) m)
        pid).months
      = (dictGet yInit m pid).months + recs.countP (fun rc => decide (rc.1.person_id = pid)) := by
  induction recs generalizing m with
  | nil => simp
  | cons rc t ih =>
      simp only [List.foldl_cons, List.countP_cons, ih]
      rw [dictGet_dictUpd]
      by_cases h : rc.1.person_id = pid
      · simp [h, yUpdate]
        omega
      · simp [h]

/-- Claim C7: every yearly statistics row reports months equal to the
number of that person's records in the supplied year batch, and avg_net
equal to total_net divided by that month count, with 0 when there are no
months. -/
theorem yearly_months_and_avg (year : Nat) (recs : List (SalaryRecord × List CustomField)) :
    ∀ row ∈ yearly_stats year recs,
      row.months = recs.countP (fun rc => decide (rc.1.person_id = row.person_id)) ∧
      row.avg_net = (if row.months = 0 then 0 else row.total_net / (row.months : Rat)) := by
  intro row hrow
  simp only [yearly_stats, List.mem_map] at hrow
  obtain ⟨ps, hmem, rfl⟩ := hrow
  obtain ⟨pid, s⟩ := ps
  refine ⟨?_, ?_⟩
  · have hget : dictGet yInit (yearlyStatsMap recs) pid = s :=
      dictGet_of_mem_nodup yInit _ pid s hmem (yearlyStatsMap_nodupKeys recs)
    have hm := yearlyStatsMap_months recs [] pid
    simp only [yearlyStatsMap] at hget
    rw [hget] at hm
    simpa [dictGet, yInit] using hm
  · by_cases h : s.months = 0 <;> simp [h]

/-- Witness for claim C7: three monthly records for one person with nets
100, 200 and 300 yield a single yearly row with months = 3 and
avg_net = 200. -/
theorem yearly_months_and_avg_witness :
    ywRow ∈ yearly_stats 2024 ywRecs ∧
    ywRow.months = ywRecs.countP (fun rc => decide (rc.1.person_id = ywRow.person_id)) ∧
    ywRow.avg_net = (if ywRow.months = 0 then 0 else ywRow.total_net / (ywRow.months : Rat)) ∧
    ywRow.months = 3 ∧ ywRow.avg_net = 200 := by
  have hlist : yearly_stats 2024 ywRecs = [ywRow] := by
    norm_num [yearly_stats, yearlyStatsMap, ywRecs, ywRow, dictUpd, yUpdate, yInit,
      _custom_sums, _allowances_sum_full, _benefits_sum, _deductions_sum]
  have hmem : ywRow ∈ yearly_stats 2024 ywRecs := by simp [hlist]
  have h := yearly_months_and_avg 2024 ywRecs ywRow hmem
  exact ⟨hmem, h.1, h.2, by norm_num [ywRow], by norm_num [ywRow]⟩

theorem dedAdd_assoc (a b c : DedTotals) :
    dedAdd (dedAdd a b) c = dedAdd a (dedAdd b c) := by
  simp [dedAdd, add_assoc]

theorem dedSumOf_cons (rc : SalaryRecord × List CustomField)
    (t : List (SalaryRecord × List CustomField)) :
    dedSumOf (rc :: t) = dedAdd (dedOf rc.1 rc.2) (dedSumOf t) := by
  simp [dedSumOf, dedAdd, dedOf, customDeductionSum_eq]

theorem dedMonthlyMap_get (recs : List (SalaryRecord × List CustomField))
    (m : List ((Nat × Nat) × DedTotals)) (key : Nat × Nat) :
    dictGet dedZero
        (recs.foldl
          (fun m rc =>
            dictUpd dedZero m (rc.1.year, rc.1.month) (fun t => dedAdd t (dedOf rc.1 rc.2)))
          m)
        key
      = dedAdd (dictGet dedZero m key)
          (dedSumOf (recs.filter (fun rc => decide ((rc.1.year, rc.1.month) = key)))) := by
  induction recs generalizing m with
  | nil => simp [dedSumOf, dedAdd]
  | cons rc t ih =>
      simp only [List.foldl_cons, ih, List.filter_cons]
      rw [dictGet_dictUpd]
      by_cases h : (rc.1.year, rc.1.month) = key
      · simp [h, dedSumOf_cons, ← dedAdd_assoc]
      · simp [h]

/-- Claim C8: in the deductions breakdown, the summary consists of
exactly the nine fixed categories, each summing its own record field,
with every record's custom deduction entries added into the
other_deductions bucket specifically (no separate custom bucket), and
every monthly series point likewise sums custom deductions into
other_deductions and each other category from its own field only. -/
theorem deductions_custom_in_other (recs : List (SalaryRecord × List CustomField)) :
    ((deductions_breakdown recs).summary.map (fun i => (i.category, i.amount))
      = [("养老保险", (recs.map (fun rc => rc.1.pension_insurance)).sum),
         ("医疗保险", (recs.map (fun rc => rc.1.medical_insurance)).sum),
         ("失业保险", (recs.map (fun rc => rc.1.unemployment_insurance)).sum),
         ("大病互助保险", (recs.map (fun rc => rc.1.critical_illness_insurance)).sum),
         ("企业年金", (recs.map (fun rc => rc.1.enterprise_annuity)).sum),
         ("住房公积金", (recs.map (fun rc => rc.1.housing_fund)).sum),
         ("其他扣除", (recs.map (fun rc => rc.1.other_deductions + specCustomDeduction rc.2)).sum),
         ("工会", (recs.map (fun rc => rc.1.labor_union_fee)).sum),
         ("绩效扣除", (recs.map (fun rc => rc.1.performance_deduction)).sum)]) ∧
    (∀ pt ∈ (deductions_breakdown recs).monthly,
        pt.other_deductions
          = ((recs.filter (fun rc => decide ((rc.1.year, rc.1.month) = (pt.year, pt.month)))).map
              (fun rc => rc.1.other_deductions + specCustomDeduction rc.2)).sum ∧
        pt.pension_insurance
          = ((recs.filter (fun rc => decide ((rc.1.year, rc.1.month) = (pt.year, pt.month)))).map
              (fun rc => rc.1.pension_insurance)).sum ∧
        pt.medical_insurance
          = ((recs.filter (fun rc => decide ((rc.1.year, rc.1.month) = (pt.year, pt.month)))).map
              (fun rc => rc.1.medical_insurance)).sum ∧
        pt.unemployment_insurance
          = ((recs.filter (fun rc => decide ((rc.1.year, rc.1.month) = (pt.year, pt.month)))).map
              (fun rc => rc.1.unemployment_insurance)).sum ∧
        pt.critical_illness_insurance
          = ((recs.filter (fun rc => decide ((rc.1.year, rc.1.month) = (pt.year, pt.month)))).map
              (fun rc => rc.1.critical_illness_insurance)).sum ∧
        pt.enterprise_annuity
          = ((recs.filter (fun rc => decide ((rc.1.year, rc.1.month) = (pt.year, pt.month)))).map
              (fun rc => rc.1.enterprise_annuity)).sum ∧
        pt.housing_fund
          = ((recs.filter (fun rc => decide ((rc.1.year, rc.1.month) = (pt.year, pt.month)))).map
              (fun rc => rc.1.housing_fund)).sum ∧
        pt.labor_union_fee
          = ((recs.filter (fun rc => decide ((rc.1.year, rc.1.month) = (pt.year, pt.month)))).map
              (fun rc => rc.1.labor_union_fee)).sum ∧
        pt.performance_deduction
          = ((recs.filter (fun rc => decide ((rc.1.year, rc.1.month) = (pt.year, pt.month)))).map
              (fun rc => rc.1.performance_deduction)).sum) := by
  constructor
  · have e1 : (deductions_breakdown recs).summary
        = dedSummary (recs.foldl (fun t rc => dedAdd t (dedOf rc.1 rc.2)) dedZero) := rfl
    rw [e1, dedFold_eq, zero_dedAdd]
    simp [dedSummary, dedSumOf]
  · intro pt hpt
    simp only [deductions_breakdown, List.mem_map] at hpt
    obtain ⟨k, hk, rfl⟩ := hpt
    have hget : dictGet dedZero (dedMonthlyMap recs) k
        = dedSumOf (recs.filter (fun rc => decide ((rc.1.year, rc.1.month) = k))) := by
      have h0 := dedMonthlyMap_get recs [] k
      simp only [dictGet] at h0
      rw [zero_dedAdd] at h0
      simpa [dedMonthlyMap] using h0
    refine ⟨?_, ?_, ?_, ?_, ?_, ?_, ?_, ?_, ?_⟩ <;>
      simp [hget, dedSumOf, Prod.mk.eta]

/-- Witness for claim C8: one record with fixed other-deduction 5 and a
custom deduction entry of 7 yields a monthly point whose
other_deductions bucket is 12. -/
theorem deductions_custom_in_other_witness :
    dwPt ∈ (deductions_breakdown dwRecs).monthly ∧
    dwPt.other_deductions
      = ((dwRecs.filter (fun rc => decide ((rc.1.year, rc.1.month) = (dwPt.year, dwPt.month)))).map
          (fun rc => rc.1.other_deductions + specCustomDeduction rc.2)).sum ∧
    dwPt.other_deductions = 12 := by
  have hlist : (deductions_breakdown dwRecs).monthly = [dwPt] := by
    set_option maxHeartbeats 1000000 in
    norm_num [deductions_breakdown, dwRecs, dwPt, dedMonthlyMap, dictUpd, dictGet, dedAdd,
      dedOf, dedZero, customDeductionSum, dedGrand, sortYm, insertYm]
  have hmem : dwPt ∈ (deductions_breakdown dwRecs).monthly := by simp [hlist]
  exact ⟨hmem, ((deductions_custom_in_other dwRecs).2 dwPt hmem).1, by norm_num [dwPt]⟩

theorem zeroInit_keys (l : List Nat) :
    (l.map (fun pid => (pid, (0 : Rat)))).map Prod.fst = l := by
  induction l with
  | nil => rfl
  | cons pid t ih => simpa using ih

theorem zeroInit_sum (l : List Nat) :
    ((l.map (fun pid => (pid, (0 : Rat)))).map Prod.snd).sum = 0 := by
  induction l with
  | nil => rfl
  | cons pid t ih => simpa using ih

theorem dictAddExisting_keys (m : List (Nat × Rat)) (k : Nat) (v : Rat) :
    (dictAddExisting m k v).map Prod.fst = m.map Prod.fst := by
  induction m with
  | nil => rfl
  | cons e t ih =>
      obtain ⟨k0, x⟩ := e
      by_cases h : k0 = k <;> simp [dictAddExisting, h, ih]

theorem dictAddExisting_sum (m : List (Nat × Rat)) (k : Nat) (v : Rat)
    (h : k ∈ m.map Prod.fst) :
    ((dictAddExisting m k v).map Prod.snd).sum = (m.map Prod.snd).sum + v := by
  induction m with
  | nil => simp at h
  | cons e t ih =>
      obtain ⟨k0, x⟩ := e
      by_cases h0 : k0 = k
      · simp [dictAddExisting, h0]
        ring
      · simp only [List.map_cons, List.mem_cons] at h
        rcases h with h | h
        · exact absurd h.symm h0
        · simp [dictAddExisting, h0, ih h]
          ring

theorem familyFold_net (recs : List (SalaryRecord × List CustomField)) (acc : FamAcc)
    (h : ∀ rc ∈ recs, rc.1.person_id ∈ acc.totals.map Prod.fst) :
    ((recs.foldl (fun a rc => familyStep a rc.1 rc.2) acc).totals.map Prod.snd).sum
        - (recs.foldl (fun a rc => familyStep a rc.1 rc.2) acc).total_net
      = (acc.totals.map Prod.snd).sum - acc.total_net := by
  induction recs generalizing acc with
  | nil => simp
  | cons rc t ih =>
      simp only [List.foldl_cons]
      rw [ih]
      · have hk : rc.1.person_id ∈ acc.totals.map Prod.fst := h rc (List.mem_cons_self rc t)
        simp only [familyStep]
        rw [dictAddExisting_sum _ _ _ hk]
        ring
      · intro rc2 h2
        have hm := h rc2 (List.mem_cons_of_mem rc h2)
        simpa [familyStep, dictAddExisting_keys] using hm

/-- Claim C9: for every year and every batch of persons and their
records, the family summary's total_net equals the sum of the by_person
values (each person's accumulated actual take-home). -/
theorem family_total_net_eq_by_person_sum (year : Nat) (person_ids : List Nat)
    (recs : List (SalaryRecord × List CustomField))
    (h : ∀ rc ∈ recs, rc.1.person_id ∈ person_ids) :
    (family_summary year person_ids recs).total_net
      = ((family_summary year person_ids recs).by_person.map Prod.snd).sum := by
  have hinit_keys := zeroInit_keys person_ids
  have hinit_sum := zeroInit_sum person_ids
  have hfold := familyFold_net recs
      { totals := person_ids.map (fun pid => (pid, (0 : Rat))),
        insurance_total := 0, tax_total := 0, total_gross := 0, total_net := 0 }
      (by simpa [hinit_keys] using h)
  simp only [family_summary]
  simp only [hinit_sum] at hfold
  linarith [hfold]

/-- Witness for claim C9: two persons with nets 10 and 20 give a family
total_net of 30 equal to the sum of the by_person values. -/
theorem family_total_net_witness :
    (family_summary 2024 [1, 2] fwRecs).total_net
      = ((family_summary 2024 [1, 2] fwRecs).by_person.map Prod.snd).sum ∧
    (family_summary 2024 [1, 2] fwRecs).total_net = 30 := by
  refine ⟨family_total_net_eq_by_person_sum 2024 [1, 2] fwRecs ?_, ?_⟩
  · intro rc h
    simp only [fwRecs, List.mem_cons, List.not_mem_nil, or_false] at h
    rcases h with rfl | rfl <;> simp
  · norm_num [family_summary, fwRecs, familyStep, dictAddExisting, _custom_sums,
      _allowances_sum_full, _deductions_sum]

theorem baseOffset_eq (history : Rat) (recs : List SalaryRecord) (start_num : Int)
    (f : SalaryRecord → Rat) :
    baseOffset history recs start_num f
      = history + ((recs.filter (fun r => decide (recYm r < start_num))).map f).sum := by
  induction recs generalizing history with
  | nil => simp [baseOffset]
  | cons r t ih =>
      have hstep : baseOffset history (r :: t) start_num f
          = baseOffset (if recYm r < start_num then history + f r else history) t start_num f := rfl
      rw [hstep]
      by_cases h : recYm r < start_num <;> simp [h, ih, List.filter_cons, add_assoc]

theorem cumPoints_pension (s e : Int) (cp cm ch : Rat) (l : List SalaryRecord) :
    (cumPoints s e cp cm ch l).map (fun pt => pt.pension_cumulative)
      = cumFrom cp
          ((l.filter (fun r => decide (s ≤ recYm r) && decide (recYm r ≤ e))).map
            (fun r => r.pension_insurance)) := by
  induction l generalizing cp cm ch with
  | nil => simp [cumPoints, cumFrom]
  | cons r t ih =>
      by_cases hc : recYm r < s ∨ e < recYm r
      · have hf : (decide (s ≤ recYm r) && decide (recYm r ≤ e)) = false := by
          rcases hc with hc | hc <;> simp [not_le.mpr hc]
        simp [cumPoints, if_pos hc, List.filter_cons, hf, ih]
      · have hc2 := hc
        push_neg at hc2
        have ht : (decide (s ≤ recYm r) && decide (recYm r ≤ e)) = true := by
          simp [hc2.1, hc2.2]
        simp [cumPoints, if_neg hc, List.filter_cons, ht, cumFrom, ih]

theorem cumPoints_medical (s e : Int) (cp cm ch : Rat) (l : List SalaryRecord) :
    (cumPoints s e cp cm ch l).map (fun pt => pt.medical_cumulative)
      = cumFrom cm
          ((l.filter (fun r => decide (s ≤ recYm r) && decide (recYm r ≤ e))).map
            (fun r => r.medical_insurance)) := by
  induction l generalizing cp cm ch with
  | nil => simp [cumPoints, cumFrom]
  | cons r t ih =>
      by_cases hc : recYm r < s ∨ e < recYm r
      · have hf : (decide (s ≤ recYm r) && decide (recYm r ≤ e)) = false := by
          rcases hc with hc | hc <;> simp [not_le.mpr hc]
        simp [cumPoints, if_pos hc, List.filter_cons, hf, ih]
      · have hc2 := hc
        push_neg at hc2
        have ht : (decide (s ≤ recYm r) && decide (recYm r ≤ e)) = true := by
          simp [hc2.1, hc2.2]
        simp [cumPoints, if_neg hc, List.filter_cons, ht, cumFrom, ih]

theorem cumPoints_housing (s e : Int) (cp cm ch : Rat) (l : List SalaryRecord) :
    (cumPoints s e cp cm ch l).map (fun pt => pt.housing_fund_cumulative)
      = cumFrom ch
          ((l.filter (fun r => decide (s ≤ recYm r) && decide (recYm r ≤ e))).map
            (fun r => r.housing_fund)) := by
  induction l generalizing cp cm ch with
  | nil => simp [cumPoints, cumFrom]
  | cons r t ih =>
      by_cases hc : recYm r < s ∨ e < recYm r
      · have hf : (decide (s ≤ recYm r) && decide (recYm r ≤ e)) = false := by
          rcases hc with hc | hc <;> simp [not_le.mpr hc]
        simp [cumPoints, if_pos hc, List.filter_cons, hf, ih]
      · have hc2 := hc
        push_neg at hc2
        have ht : (decide (s ≤ recYm r) && decide (recYm r ≤ e)) = true := by
          simp [hc2.1, hc2.2]
        simp [cumPoints, if_neg hc, List.filter_cons, ht, cumFrom, ih]

/-- Claim C4 (amended): for each of the three contribution lines the
reported cumulative series equals the running sums over the in-range
records (sorted by month), starting from a base equal to the person's
history balance plus the sum of all contributions from records strictly
before the range start; the base itself is not emitted as a point, so
the first reported value is the base plus the first in-range
contribution. -/
theorem contributions_series_from_base (p : Person) (all_recs : List SalaryRecord)
    (rng : Option String) :
    ((contributions_cumulative p all_recs rng).points.map (fun pt => pt.pension_cumulative)
      = cumFrom
          (p.pension_history
            + (((sortByYm all_recs).filter
                  (fun r => decide (recYm r < (rangeBounds rng).1))).map
                (fun r => r.pension_insurance)).sum)
          (((sortByYm all_recs).filter
              (fun r => decide ((rangeBounds rng).1 ≤ recYm r)
                && decide (recYm r ≤ (rangeBounds rng).2))).map
            (fun r => r.pension_insurance))) ∧
    ((contributions_cumulative p all_recs rng).points.map (fun pt => pt.medical_cumulative)
      = cumFrom
          (p.medical_history
            + (((sortByYm all_recs).filter
                  (fun r => decide (recYm r < (rangeBounds rng).1))).map
                (fun r => r.medical_insurance)).sum)
          (((sortByYm all_recs).filter
              (fun r => decide ((rangeBounds rng).1 ≤ recYm r)
                && decide (recYm r ≤ (rangeBounds rng).2))).map
            (fun r => r.medical_insurance))) ∧
    ((contributions_cumulative p all_recs rng).points.map (fun pt => pt.housing_fund_cumulative)
      = cumFrom
          (p.housing_fund_history
            + (((sortByYm all_recs).filter
                  (fun r => decide (recYm r < (rangeBounds rng).1))).map
                (fun r => r.housing_fund)).sum)
          (((sortByYm all_recs).filter
              (fun r => decide ((rangeBounds rng).1 ≤ recYm r)
                && decide (recYm r ≤ (rangeBounds rng).2))).map
            (fun r => r.housing_fund))) := by
  refine ⟨?_, ?_, ?_⟩ <;>
    simp only [contributions_cumulative, cumPoints_pension, cumPoints_medical,
      cumPoints_housing, baseOffset_eq]

/-- Counterexample for claim C4 as stated: with pension history 100 and
two records contributing 10 and 20, the range starting at the second
record's month, the reported series is the single value 130 (base 110
plus the in-range contribution 20); no 110 point is reported, so the
claimed series start value of 110 is wrong. -/
theorem contributions_start_value_counterexample :
    ((contributions_cumulative cwPerson [cwRec1, cwRec2] (some "2024-02")).points.map
        (fun pt => pt.pension_cumulative)) = [130] ∧
    ((contributions_cumulative cwPerson [cwRec1, cwRec2] (some "2024-02")).points.map
        (fun pt => pt.pension_cumulative)) ≠ [110, 130] ∧
    baseOffset cwPerson.pension_history (sortByYm [cwRec1, cwRec2]) 202402
        (fun r => r.pension_insurance) = 110 := by
  have hb : rangeBounds (some "2024-02") = (202402, 202402) := by decide
  have h1 : ((contributions_cumulative cwPerson [cwRec1, cwRec2] (some "2024-02")).points.map
      (fun pt => pt.pension_cumulative)) = [130] := by
    norm_num [contributions_cumulative, hb, cwPerson, cwRec1, cwRec2, sortByYm, insertByYm,
      recYm, _ym_num, baseOffset, cumPoints]
  refine ⟨h1, ?_, ?_⟩
  · rw [h1]
    norm_num
  · norm_num [baseOffset, cwPerson, cwRec1, cwRec2, sortByYm, insertByYm, recYm, _ym_num]

